import Mathlib

/-!
# Verification of the scanning-instrument measurement protocol

Shallow embedding of the multi-channel scan/trigger/read protocol shared by
`module_34980A.py` (class `KS34980A`) and `module_daq970a_visa.py` (class
`Daq970a`), plus the channel-list parser `list_of_channels` from
`module_daq970a.py`.

Numeric values are modelled as exact rationals (`ℚ`); Python strings are
modelled as Lean `String` / `List Char`.  The Python string operations used by
the source (`str.split`, `str.strip`, `str.rstrip`, `str.replace`,
`str.startswith`, `float(...)`, `int(...)`, `re.split("[, ]", ...)`) are
given explicit char-list implementations below so that every definition is
executable by the kernel.
-/

attribute [local semireducible] Rat.mul Rat.inv Rat.add Rat.sub

/-- Python's default whitespace test (ASCII subset, as used by
`str.strip` / `str.rstrip` on SCPI replies). -/
def pyIsSpace (c : Char) : Bool :=
  c = ' ' || c = '\t' || c = '\n' || c = '\r' || c = '\x0b' || c = '\x0c'

/-- `str.strip()` on a char list: drop whitespace from both ends. -/
def pyStripL (cs : List Char) : List Char :=
  ((cs.dropWhile pyIsSpace).reverse.dropWhile pyIsSpace).reverse

/-- `str.rstrip()` on a char list: drop trailing whitespace. -/
def pyRstripL (cs : List Char) : List Char :=
  (cs.reverse.dropWhile pyIsSpace).reverse

/-- `str.strip()`. -/
def pyStrip (s : String) : String :=
  ⟨pyStripL s.data⟩

/-- `str.rstrip()`. -/
def pyRstrip (s : String) : String :=
  ⟨pyRstripL s.data⟩

/-- `str.startswith(pat)`. -/
def pyStartsWith (s pat : String) : Bool :=
  pat.data.isPrefixOf s.data

/-- Substring occurrence on char lists (helper for Python's `pat in s`). -/
def containsSub : List Char → List Char → Bool
  | [], pat => pat.isEmpty
  | x :: t, pat => pat.isPrefixOf (x :: t) || containsSub t pat

/-- Python's `pat in s` substring test. -/
def pyContains (s pat : String) : Bool :=
  containsSub s.data pat.data

/-- Split a char list at every character satisfying `p`, keeping empty
pieces — the semantics of Python `str.split(sep)` for a one-character
separator and of `re.split("[, ]", s)` for a character class. -/
def splitBy (p : Char → Bool) : List Char → List (List Char)
  | [] => [[]]
  | x :: xs =>
    match splitBy p xs with
    | [] => [[]]
    | h :: t => if p x then [] :: h :: t else (x :: h) :: t

/-- Python `str.split('","')` — the three-character separator used on the
`CONF?` reply.  Non-overlapping, left to right. -/
def splitQuoteCommaQuote : List Char → List (List Char)
  | [] => [[]]
  | [x] => [[x]]
  | [x, y] => [[x, y]]
  | x :: y :: z :: rest =>
    if x = '"' && y = ',' && z = '"' then
      [] :: splitQuoteCommaQuote rest
    else
      match splitQuoteCommaQuote (y :: z :: rest) with
      | [] => [[x]]
      | h :: t => (x :: h) :: t

/-- Value of a list of decimal digit characters (most significant first). -/
def digitsToNat (cs : List Char) : Nat :=
  cs.foldl (fun a c => 10 * a + (c.toNat - 48)) 0

/-- Optional leading sign: returns the sign (as `1` or `-1`) and the rest. -/
def takeSign : List Char → Int × List Char
  | '+' :: r => (1, r)
  | '-' :: r => (-1, r)
  | cs => (1, cs)

/-- `10 ^ e` for an integer exponent, as a rational. -/
def pow10 : Int → ℚ
  | .ofNat n => ((10 ^ n : Nat) : ℚ)
  | .negSucc n => 1 / ((10 ^ (n + 1) : Nat) : ℚ)

/-- Python `float(s)` on the decimal/exponent syntax that SCPI replies use:
optional surrounding whitespace, optional sign, a mantissa with at least one
digit (integer part, fractional part or both), and an optional `e`/`E`
exponent with optional sign.  Returns `none` exactly when Python's `float`
would raise `ValueError` (the special forms `inf` / `nan` are not modelled;
they never occur in this protocol). -/
def parseFloat? (s : String) : Option ℚ :=
  let cs := pyStripL s.data
  let (sgn, cs) := takeSign cs
  let ip := cs.takeWhile Char.isDigit
  let r1 := cs.dropWhile Char.isDigit
  let (fp, r2) :=
    match r1 with
    | '.' :: r => (r.takeWhile Char.isDigit, r.dropWhile Char.isDigit)
    | _ => ([], r1)
  if ip.isEmpty && fp.isEmpty then none
  else
    let mant : ℚ :=
      ((digitsToNat ip * 10 ^ fp.length + digitsToNat fp : Nat) : ℚ) /
        ((10 ^ fp.length : Nat) : ℚ)
    match r2 with
    | [] => some ((sgn : ℚ) * mant)
    | e :: r3 =>
      if e = 'e' || e = 'E' then
        let (esgn, r4) := takeSign r3
        let ed := r4.takeWhile Char.isDigit
        let r5 := r4.dropWhile Char.isDigit
        if ed.isEmpty || !r5.isEmpty then none
        else some ((sgn : ℚ) * mant * pow10 (esgn * (digitsToNat ed : Int)))
      else none

/-- Python `int(s)`: optional surrounding whitespace, optional sign, one or
more decimal digits, nothing else. -/
def parseInt? (s : String) : Option Int :=
  let cs := pyStripL s.data
  let (sgn, cs) := takeSign cs
  if cs.isEmpty || !cs.all Char.isDigit then none
  else some (sgn * (digitsToNat cs : Int))

/-- `[float(x.strip()) for x in s.split(',')]` — the parse of a
comma-separated float reply; `none` when any element fails, which in the
source raises and aborts the enclosing call. -/
def parseFloatList (s : String) : Option (List ℚ) :=
  (splitBy (fun c => c = ',') s.data).mapM fun piece => parseFloat? ⟨piece⟩

instance {ε α : Type} [DecidableEq ε] [DecidableEq α] : DecidableEq (Except ε α) := fun a b =>
  match a, b with
  | .ok x, .ok y =>
    if h : x = y then .isTrue (by rw [h]) else .isFalse (by simp [h])
  | .error x, .error y =>
    if h : x = y then .isTrue (by rw [h]) else .isFalse (by simp [h])
  | .ok _, .error _ => .isFalse (by simp)
  | .error _, .ok _ => .isFalse (by simp)

/-- Python `range(a, b)` as a list of integers (empty when `b ≤ a`). -/
def pyRange (a b : Int) : List Int :=
  (List.range (b - a).toNat).map (fun (i : Nat) => a + (i : Int))

/-- `list_of_channels` from `module_daq970a.py` (lines 10–19):

```python
list_num = str_chan.split(":")
if len(list_num) == 1:
    return [int(list_num[0]), ]
if len(list_num) > 2:
    raise ValueError
list_channel = []
for _i in range(int(list_num[0]), int(list_num[1]) + 1):
    list_channel.append(_i)
return list_channel
```

`Except.error ()` models the raised `ValueError`, both the explicit one for
more than two tokens and the one `int(...)` raises on non-numeric content. -/
def list_of_channels (str_chan : String) : Except Unit (List Int) :=
  let list_num := (splitBy (fun c => c = ':') str_chan.data).map (fun cs => (⟨cs⟩ : String))
  if list_num.length = 1 then
    match parseInt? (list_num.getD 0 "") with
    | none => .error ()
    | some n => .ok [n]
  else if list_num.length > 2 then
    .error ()
  else
    match parseInt? (list_num.getD 0 ""), parseInt? (list_num.getD 1 "") with
    | some a, some b => .ok (pyRange a (b + 1))
    | _, _ => .error ()

namespace Scan

/-- `vec_read.reshape((num_triggers, num_channels)).T` from `measure` /
`get_raw_data`: row `t` of the un-transposed reshape is
`vec[t*C], …, vec[t*C + C - 1]` (numpy row-major order), so after the
transpose entry `[c][t]` is `vec[t*C + c]`.  `none` models the `ValueError`
numpy raises when the element count differs from `T * C`, which the
enclosing `except` re-raises as the wrapper's acquisition error. -/
def reshapeCT (vec : List ℚ) (C T : Nat) : Option (List (List ℚ)) :=
  if vec.length = T * C then
    some ((List.range C).map fun c => (List.range T).map fun t => vec.getD (t * C + c) 0)
  else none

/-- `np.mean(channel_data)`, with the source's separate branch returning the
bare element for a single-sample row. -/
def chanMean (row : List ℚ) : ℚ :=
  if row.length = 1 then row.getD 0 0 else row.sum / (row.length : ℚ)

/-- The square of the reported per-channel deviation: the source returns
`0.0` for a single-sample row and `np.std(channel_data, ddof=1)` (the square
root of the Bessel-corrected sample variance, divisor `N - 1`) otherwise.
The square root is a strictly monotone bijection on nonnegatives, so the
variance determines the reported deviation exactly. -/
def chanVarBessel (row : List ℚ) : ℚ :=
  if row.length = 1 then 0
  else ((row.map (fun x => (x - row.sum / (row.length : ℚ)) ^ 2)).sum) / ((row.length : ℚ) - 1)

/-- `KS34980A.measure` / `Daq970a.measure` after the `ROUT:SCAN:SIZE?` and
`TRIG:COUN?` queries produced channel count `C` and trigger count `T`,
applied to the already float-parsed `READ?` payload. -/
def measureVec (C T : Nat) (vec : List ℚ) : Except Unit (List ℚ × List ℚ) :=
  match reshapeCT vec C T with
  | none => .error ()
  | some mat => .ok (mat.map chanMean, mat.map chanVarBessel)

/-- `measure` from the `READ?` reply string:
`vec_read = np.array(str_read.split(","), dtype=float)` then reshape and
per-channel statistics; any parse failure raises, modelled by `.error`. -/
def measure (C T : Nat) (readReply : String) : Except Unit (List ℚ × List ℚ) :=
  match parseFloatList readReply with
  | none => .error ()
  | some vec => measureVec C T vec

/-- `get_raw_data`: same queries, parse and reshape, returning each
channel's row (`channel_data.copy()`). -/
def get_raw_data (C T : Nat) (readReply : String) : Except Unit (List (List ℚ)) :=
  match parseFloatList readReply with
  | none => .error ()
  | some vec =>
    match reshapeCT vec C T with
    | none => .error ()
    | some mat => .ok mat

end Scan

/-- The `SYST:ERR?` drain loop of `KS34980A.check_errors` (lines 245–263 of
`module_34980A.py`; `Daq970a.check_errors` runs the identical loop):

```python
errors = []
try:
    while True:
        error_response = self.query("SYST:ERR?")
        if error_response.startswith("+0"):
            break
        errors.append(error_response.rstrip())
except Exception as e:
    logger.warning(...)
return errors
```

The argument is the stream of `SYST:ERR?` outcomes: `some r` is a reply,
`none` a transport/query failure (`self.query` raising), which the
surrounding `except` catches, ending the loop with the errors accumulated so
far; an exhausted stream models the query blocking until a timeout error,
which is caught the same way.  The function is total: `check_errors` never
propagates an exception. -/
def check_errors : List (Option String) → List String
  | [] => []
  | none :: _ => []
  | some r :: rest =>
    if pyStartsWith r "+0" then [] else pyRstrip r :: check_errors rest

namespace KS34980A

/-- `KS34980A.connect_device` with an explicit resource name
(`module_34980A.py` lines 91–129).  `openOk` tells whether
`open_resource` / the initial `*RST` write succeeded; `idnReply` is the
`*IDN?` reply (`none` when the query raised).  The body checks
`"34980A" not in idn_response` and raises before `self.device` /
`self._is_connected` are assigned, so the returned flag is the wrapper's
`_is_connected` state and `.error ()` is the raised `KS34980AError` (with
`_is_connected` still `false`). -/
def connect_device (openOk : Bool) (idnReply : Option String) : Except Unit Bool :=
  if !openOk then .error ()
  else
    match idnReply with
    | none => .error ()
    | some idn => if pyContains idn "34980A" then .ok true else .error ()

end KS34980A

namespace Daq970a

/-- `Daq970a.connect_device` with an explicit resource name
(`module_daq970a_visa.py` lines 98–101):

```python
self.device = cast(MessageBasedResource, self.res_man.open_resource(name))
idn_response = self.device.query("*IDN?")
self._is_connected = True
```

The `*IDN?` reply content is never inspected: the wrapper is marked
connected whatever the instrument identifies as. -/
def connect_device (openOk : Bool) (idnReply : Option String) : Except Unit Bool :=
  if !openOk then .error ()
  else
    match idnReply with
    | none => .error ()
    | some _ => .ok true

end Daq970a

/-- The SCPI write commands `configure_volt_dc` can emit, in the order the
source emits them.  Constructors carry the interpolated arguments of the
corresponding f-string. -/
inductive Cmd
  | routOpenAll
  | routOpen (chanList : String)
  | routScan (chan : String)
  | nplcSet (value : String) (chan : Option String)
  | confVoltDC (range resolution : String) (chan : Option String)
  | trigSourTim
  | trigTim (sec : ℚ)
  | trigCoun (count : ℚ)
  | trigSourImm
  deriving DecidableEq, Repr

/-- The instrument replies a `configure_volt_dc` run consumes, in query
order.  `scanReply` (the `ROUT:SCAN?` reply) is consumed only by the
DAQ970A variant; `errReplies` is the `SYST:ERR?` stream of `check_errors`. -/
structure Replies where
  scanReply : String
  nplcReply : String
  confReply : String
  trigSourReply : String
  trigTimReply : String
  trigCounReply : String
  errReplies : List (Option String)
  deriving Repr

/-- Why a configuration attempt failed: `exception` for any Python exception
re-raised by the catch-all (parse failures, transport errors),
`instrumentErrors` for the explicit raise on a non-empty error-queue
drain. -/
inductive ConfigError
  | exception
  | instrumentErrors (errors : List String)
  deriving DecidableEq, Repr

/-- The tuple `configure_volt_dc` returns:
`(list_conf, list_nplc, trig_source, trig_time, trig_count)`. -/
structure ConfigOut where
  confs : List String
  nplcs : List ℚ
  trigSource : String
  trigTime : ℚ
  trigCount : ℚ
  deriving DecidableEq, Repr

/-- Observable outcome of one `configure_volt_dc` call: the writes issued
(in order), the transport timeout after the call, whether the
insufficient-timeout warning was emitted, and the result or error. -/
structure ConfigOutcome where
  writes : List Cmd
  timeout : ℚ
  warned : Bool
  result : Except ConfigError ConfigOut
  deriving DecidableEq

/-- `list_conf = [x.strip().replace('"', '') for x in ret_conf.split('","')]` -/
def parseConfReply (ret_conf : String) : List String :=
  (splitQuoteCommaQuote ret_conf.data).map
    (fun cs => (⟨(pyStripL cs).filter (fun c => c ≠ '"')⟩ : String))

/-- Result of the defensive per-channel `CONF?` parse loop: the three
accumulated lists plus the entries for which the `except (ValueError,
IndexError)` handler ran (each of those is logged with `logger.warning`). -/
structure ConfParse where
  modes : List String
  ranges : List ℚ
  resolutions : List ℚ
  logged : List String
  deriving DecidableEq, Repr

/-- `re.split("[, ]", conf)` — the token split of one `CONF?` entry. -/
def confParts (conf : String) : List String :=
  (splitBy (fun c => c = ',' || c = ' ') conf.data).map (fun cs => (⟨cs⟩ : String))

/-- The reconciliation parse loop of `configure_volt_dc`
(`module_34980A.py` lines 324–333, identical in `module_daq970a_visa.py`):

```python
for conf in list_conf:
    try:
        parts = re.split("[, ]", conf)
        if len(parts) >= 3:
            list_mode.append(parts[0])
            list_range.append(float(parts[1]))
            list_resolution.append(float(parts[2]))
    except (ValueError, IndexError) as e:
        logger.warning(...)
```

Note the appends happen one at a time: when `float(parts[1])` raises,
`parts[0]` has already been appended to `list_mode`; when `float(parts[2])`
raises, the range has also been appended.  An entry with fewer than three
parts is skipped without entering the handler (nothing logged). -/
def parseConfLoop : List String → ConfParse
  | [] => ⟨[], [], [], []⟩
  | conf :: rest =>
    let r := parseConfLoop rest
    let parts := confParts conf
    if parts.length ≥ 3 then
      match parseFloat? (parts.getD 1 "") with
      | none => ⟨parts.getD 0 "" :: r.modes, r.ranges, r.resolutions, conf :: r.logged⟩
      | some rv =>
        match parseFloat? (parts.getD 2 "") with
        | none =>
          ⟨parts.getD 0 "" :: r.modes, rv :: r.ranges, r.resolutions, conf :: r.logged⟩
        | some sv =>
          ⟨parts.getD 0 "" :: r.modes, rv :: r.ranges, sv :: r.resolutions, r.logged⟩
    else r

/-- `np.max(list_nplc) if list_nplc else 1.0` -/
def maxNplc : List ℚ → ℚ
  | [] => 1
  | x :: xs => xs.foldl max x

namespace KS34980A

/-- `KS34980A.configure_volt_dc` (`module_34980A.py` lines 265–380) as a
function of its arguments, the pre-call transport timeout `timeout0` and
the instrument replies.  `volt_range` / `resolution` / `nplc` values are
carried as the strings the f-strings interpolate; the timed-trigger tuple
and the timeout are exact rationals.  Failed float parses follow the
source's exception flow into the catch-all (`ConfigError.exception`); a
non-empty error drain raises `KS34980AError` with the error list
(`ConfigError.instrumentErrors`). -/
def configure_volt_dc (volt_range resolution : String) (str_channel : Option String)
    (nplc : Option String) (tup_trig_tim_cnt : Option (ℚ × ℚ))
    (ms_timeout : Option String) (timeout0 : ℚ) (r : Replies) : ConfigOutcome :=
  let w1 := [Cmd.routOpenAll] ++
    (match str_channel with | some c => [Cmd.routScan c] | none => [])
  let w2 := w1 ++ (match nplc with | some v => [Cmd.nplcSet v str_channel] | none => [])
  match parseFloatList r.nplcReply with
  | none => ⟨w2, timeout0, false, .error .exception⟩
  | some list_nplc =>
    let w3 := w2 ++ [Cmd.confVoltDC volt_range resolution str_channel]
    let w4 := w3 ++ (match tup_trig_tim_cnt with
      | some tc => [Cmd.trigSourTim, Cmd.trigTim tc.1, Cmd.trigCoun tc.2]
      | none => [Cmd.trigSourImm])
    let list_conf := parseConfReply r.confReply
    let trig_source := pyRstrip r.trigSourReply
    match parseFloat? r.trigTimReply with
    | none => ⟨w4, timeout0, false, .error .exception⟩
    | some trig_time =>
      match parseFloat? r.trigCounReply with
      | none => ⟨w4, timeout0, false, .error .exception⟩
      | some trig_count =>
        let newTimeout : Option ℚ :=
          match ms_timeout with
          | none => some timeout0
          | some s =>
            if s = "AUTO" then
              some (1000 * (trig_time + maxNplc list_nplc / 50 + 3) * trig_count)
            else parseFloat? s
        match newTimeout with
        | none => ⟨w4, timeout0, false, .error .exception⟩
        | some tmo =>
          let estimated_time := trig_time * trig_count
          let warned := decide (tmo < estimated_time * 1000)
          let errors := check_errors r.errReplies
          if errors.isEmpty then
            ⟨w4, tmo, warned, .ok ⟨list_conf, list_nplc, trig_source, trig_time, trig_count⟩⟩
          else
            ⟨w4, tmo, warned, .error (.instrumentErrors errors)⟩

end KS34980A

namespace Daq970a

/-- `Daq970a._extract_channel_list` (`module_daq970a_visa.py` lines
434–443): strip a `#<d><len>` SCPI block header; `.error ()` models the
`IndexError` / `ValueError` the slicing and `int(...)` can raise, which the
caller's catch-all turns into `DAQ970AError`. -/
def extract_channel_list (block_string : String) : Except Unit String :=
  if !(pyStartsWith block_string "#") then .ok (pyStrip block_string)
  else
    match block_string.data.drop 1 with
    | [] => .error ()
    | d :: rest =>
      match parseInt? (⟨[d]⟩ : String) with
      | none => .error ()
      | some nd =>
        match parseInt? (⟨rest.take nd.toNat⟩ : String) with
        | none => .error ()
        | some len => .ok (⟨(rest.drop nd.toNat).take len.toNat⟩ : String)

/-- `Daq970a.configure_volt_dc` (`module_daq970a_visa.py` lines 244–360).
Differences from the 34980A variant, kept faithfully: the stale scan list
is queried (`ROUT:SCAN?`) and opened selectively instead of
`ROUT:OPEN:ALL`; the timeout-sufficiency estimate is a fixed `0.2` seconds
when the queried trigger source is `"IMM"`; and `self.check_errors()` only
*constructs* `DAQ970AError(...)` without raising it, so a non-empty error
drain never fails the call. -/
def configure_volt_dc (volt_range resolution : String) (str_channel : Option String)
    (nplc : Option String) (tup_trig_tim_cnt : Option (ℚ × ℚ))
    (ms_timeout : Option String) (timeout0 : ℚ) (r : Replies) : ConfigOutcome :=
  match extract_channel_list r.scanReply with
  | .error _ => ⟨[], timeout0, false, .error .exception⟩
  | .ok ch_list =>
    let w1 := (if ch_list ≠ "(@)" then [Cmd.routOpen ch_list] else []) ++
      (match str_channel with | some c => [Cmd.routScan c] | none => [])
    let w2 := w1 ++ (match nplc with | some v => [Cmd.nplcSet v str_channel] | none => [])
    match parseFloatList r.nplcReply with
    | none => ⟨w2, timeout0, false, .error .exception⟩
    | some list_nplc =>
      let w3 := w2 ++ [Cmd.confVoltDC volt_range resolution str_channel]
      let w4 := w3 ++ (match tup_trig_tim_cnt with
        | some tc => [Cmd.trigSourTim, Cmd.trigTim tc.1, Cmd.trigCoun tc.2]
        | none => [Cmd.trigSourImm])
      let list_conf := parseConfReply r.confReply
      let trig_source := pyRstrip r.trigSourReply
      match parseFloat? r.trigTimReply with
      | none => ⟨w4, timeout0, false, .error .exception⟩
      | some trig_time =>
        match parseFloat? r.trigCounReply with
        | none => ⟨w4, timeout0, false, .error .exception⟩
        | some trig_count =>
          let newTimeout : Option ℚ :=
            match ms_timeout with
            | none => some timeout0
            | some s =>
              if s = "AUTO" then
                some (1000 * (trig_time + maxNplc list_nplc / 50 + 3) * trig_count)
              else parseFloat? s
          match newTimeout with
          | none => ⟨w4, timeout0, false, .error .exception⟩
          | some tmo =>
            let estimated_time : ℚ :=
              if trig_source = "IMM" then 1 / 5 else trig_time * trig_count
            let warned := decide (tmo < estimated_time * 1000)
            let _errors := check_errors r.errReplies
            ⟨w4, tmo, warned, .ok ⟨list_conf, list_nplc, trig_source, trig_time, trig_count⟩⟩

end Daq970a

/-- Whether a write is one of the trigger-configuration commands
(`TRIG:SOUR TIM`, `TRIG:TIM`, `TRIG:COUN`, `TRIG:SOUR IMM`). -/
def isTrigCmd : Cmd → Bool
  | .trigSourTim => true
  | .trigTim _ => true
  | .trigCoun _ => true
  | .trigSourImm => true
  | _ => false

/-! ## Sanity checks on concrete inputs -/

example : parseFloat? "0.1" = some (1 / 10) := by decide
example : parseFloat? "+1.00000000E+00" = some 1 := by decide
example : parseFloat? "-2.5e-2" = some (-(1 / 40)) := by decide
example : parseFloat? "abc" = none := by decide
example : parseInt? " 105 " = some 105 := by decide
example : parseInt? "10:5" = none := by decide
example : parseFloatList "1.0, 2.0" = some [1, 2] := by decide
example : pyStartsWith "+0,\"No error\"" "+0" = true := by decide
example : list_of_channels "101" = .ok [101] := by decide
example : list_of_channels "101:105" = .ok [101, 102, 103, 104, 105] := by decide
example : list_of_channels "105:101" = .ok [] := by decide
example : list_of_channels "101:105:110" = .error () := by decide
example : list_of_channels "abc" = .error () := by decide
example : Scan.reshapeCT [0, 1, 2, 3, 4, 5] 2 3 = some [[0, 2, 4], [1, 3, 5]] := by decide
example : Scan.measureVec 1 3 [1, 2, 3] = .ok ([2], [1]) := by decide
example : Scan.measure 2 2 "1.0,2.0,3.0" = .error () := by decide
example : check_errors [some "-113,\"Undefined header\"", none, some "-101,x"] =
    ["-113,\"Undefined header\""] := by decide
example : check_errors [some "+0,\"No error\""] = [] := by decide
example : KS34980A.connect_device true (some "Agilent Technologies,34980A,MY123,1.0") =
    .ok true := by decide
example : KS34980A.connect_device true (some "KEYSIGHT,DAQ970A,MY58,1.0") = .error () := by
  decide
example : Daq970a.connect_device true (some "totally wrong device") = .ok true := by decide

/-! ## Helper lemmas -/

theorem splitBy_ne_nil (p : Char → Bool) (l : List Char) : splitBy p l ≠ [] := by
  cases l with
  | nil => simp [splitBy]
  | cons x xs =>
    rcases hs : splitBy p xs with _ | ⟨h1, t⟩
    · exact absurd hs (splitBy_ne_nil p xs)
    · by_cases hpx : p x <;> simp [splitBy, hs, hpx]

theorem splitBy_length_one (p : Char → Bool) (l : List Char)
    (h : (splitBy p l).length = 1) : splitBy p l = [l] := by
  induction l with
  | nil => rfl
  | cons x xs ih =>
    rcases hs : splitBy p xs with _ | ⟨h1, t⟩
    · exact absurd hs (splitBy_ne_nil p xs)
    · by_cases hpx : p x
      · rw [show splitBy p (x :: xs) = [] :: h1 :: t by simp [splitBy, hs, hpx]] at h
        simp at h
      · have hstep : splitBy p (x :: xs) = (x :: h1) :: t := by simp [splitBy, hs, hpx]
        rw [hstep] at h ⊢
        simp only [List.length_cons] at h
        have ht : t = [] := by
          cases t with
          | nil => rfl
          | cons a b => simp at h
        subst ht
        have h2 := ih (by rw [hs]; rfl)
        rw [hs] at h2
        obtain rfl : h1 = xs := by injection h2
        rfl

theorem getD_map_range {α : Type} (f : Nat → α) (n c : Nat) (d : α) (h : c < n) :
    ((List.range n).map f).getD c d = f c := by
  rw [List.getD_eq_getElem?_getD]
  simp [List.getElem?_map, List.getElem?_range, h]

theorem getD_map_of_lt {α β : Type} (f : α → β) (l : List α) (c : Nat) (d : β) (d' : α)
    (h : c < l.length) : (l.map f).getD c d = f (l.getD c d') := by
  rw [List.getD_eq_getElem?_getD, List.getD_eq_getElem?_getD]
  simp [List.getElem?_map, List.getElem?_eq_getElem h, List.getD_eq_getElem?_getD]

/-! ## C10 -/

/-- C10: `check_errors` never propagates an exception: when the `SYST:ERR?`
drain hits a transport/query failure before the `"+0"` sentinel, the loop's
`except` handler ends the drain and only the (rstripped) error strings
accumulated before the failure are kept — a possibly empty partial list,
with nothing raised (the model is a total function into `List String`). -/
theorem check_errors_partial_after_transport_failure
    (pre : List String) (junk : List (Option String))
    (h : ∀ e ∈ pre, pyStartsWith e "+0" = false) :
    check_errors (pre.map some ++ none :: junk) = pre.map pyRstrip := by
  induction pre with
  | nil => simp [check_errors]
  | cons e rest ih =>
    have he : pyStartsWith e "+0" = false := h e (by simp)
    have ih' := ih fun x hx => h x (by simp [hx])
    simp [check_errors, he, ih']

theorem check_errors_partial_after_transport_failure_witness :
    (∀ e ∈ ["-410,\"Query INTERRUPTED\""], pyStartsWith e "+0" = false) ∧
    check_errors (["-410,\"Query INTERRUPTED\""].map some ++ none :: [some "+0,\"No error\""]) =
      ["-410,\"Query INTERRUPTED\""].map pyRstrip :=
  ⟨by decide,
   check_errors_partial_after_transport_failure ["-410,\"Query INTERRUPTED\""]
     [some "+0,\"No error\""] (by decide)⟩

/-! ## C9 -/

/-- C9 counterexample: the claim says a connection attempt whose identity
reply does not match the expected model string fails and is never marked
connected.  `Daq970a.connect_device` (explicit resource name) never inspects
the `*IDN?` reply: with a reply naming a different instrument it still
returns with `_is_connected = True`. -/
theorem daq_connect_device_skips_identity_check :
    Daq970a.connect_device true (some "Agilent Technologies,34972A,MY111,1.0") = .ok true ∧
    pyContains "Agilent Technologies,34972A,MY111,1.0" "DAQ970A" = false := by
  decide

/-- C9 amended: `KS34980A.connect_device` raises (and the wrapper is left
disconnected) whenever the `*IDN?` reply does not contain `"34980A"`, and
succeeds marking the wrapper connected when it does; `Daq970a.connect_device`
with an explicit resource name performs no identity verification at all and
marks the wrapper connected whenever opening and the `*IDN?` query succeed,
whatever the reply says (identity filtering happens only in `find_device`
during auto-detection). -/
theorem connect_identity_amended :
    (∀ (openOk : Bool) (idn : String), pyContains idn "34980A" = false →
      KS34980A.connect_device openOk (some idn) = .error ()) ∧
    (∀ (openOk : Bool) (idn : String), pyContains idn "34980A" = true →
      KS34980A.connect_device openOk (some idn) =
        if openOk then .ok true else .error ()) ∧
    (∀ idn : String, Daq970a.connect_device true (some idn) = .ok true) := by
  refine ⟨fun openOk idn h => ?_, fun openOk idn h => ?_, fun idn => rfl⟩
  · cases openOk <;> simp [KS34980A.connect_device, h]
  · cases openOk <;> simp [KS34980A.connect_device, h]

theorem connect_identity_amended_witness :
    KS34980A.connect_device true (some "KEYSIGHT,DAQ970A,MY58,1.0") = .error () ∧
    Daq970a.connect_device true (some "KEYSIGHT,DAQ970A,MY58,1.0") = .ok true :=
  ⟨connect_identity_amended.1 true "KEYSIGHT,DAQ970A,MY58,1.0" (by decide),
   connect_identity_amended.2.2 "KEYSIGHT,DAQ970A,MY58,1.0"⟩

/-! ## C3 -/

/-- C3 counterexample: the claim says a range `"A:B"` with `B < A` fails
with the spec's `InvalidSpecError`.  In `list_of_channels`
(`module_daq970a.py`), `range(int(A), int(B) + 1)` is simply empty when
`B < A`, so `list_of_channels("105:101")` returns `[]` without raising. -/
theorem list_of_channels_reversed_range_ok_empty :
    list_of_channels "105:101" = .ok [] := by decide

/-- C3 amended: `list_of_channels` returns `[A]` for a single numeric token
and the inclusive list `[A, A+1, …, B]` for a range `"A:B"` with `A ≤ B`;
for `B < A` it returns the *empty list* without raising (Python's
`range(A, B+1)` is empty); more than two tokens or non-numeric content
raise `ValueError`. -/
theorem list_of_channels_amended :
    (∀ (s : String) (n : Int),
      (splitBy (fun c => c = ':') s.data).length = 1 → parseInt? s = some n →
      list_of_channels s = .ok [n]) ∧
    (∀ (s : String) (t₀ t₁ : List Char) (a b : Int),
      splitBy (fun c => c = ':') s.data = [t₀, t₁] →
      parseInt? ⟨t₀⟩ = some a → parseInt? ⟨t₁⟩ = some b →
      list_of_channels s = .ok (pyRange a (b + 1))) ∧
    (∀ (a b : Int), a ≤ b →
      (pyRange a (b + 1)).length = (b - a).toNat + 1 ∧
      ∀ i, i < (b - a).toNat + 1 → (pyRange a (b + 1)).getD i 0 = a + i) ∧
    (∀ (a b : Int), b < a → pyRange a (b + 1) = []) ∧
    (∀ s : String, 2 < (splitBy (fun c => c = ':') s.data).length →
      list_of_channels s = .error ()) ∧
    (∀ s : String, (splitBy (fun c => c = ':') s.data).length = 1 → parseInt? s = none →
      list_of_channels s = .error ()) ∧
    (∀ (s : String) (t₀ t₁ : List Char),
      splitBy (fun c => c = ':') s.data = [t₀, t₁] →
      parseInt? ⟨t₀⟩ = none ∨ parseInt? ⟨t₁⟩ = none →
      list_of_channels s = .error ()) := by
  refine ⟨fun s n h1 hp => ?_, fun s t₀ t₁ a b hs hp0 hp1 => ?_,
    fun a b hab => ⟨?_, fun i hi => ?_⟩, fun a b hba => ?_,
    fun s h => ?_, fun s h1 hp => ?_, fun s t₀ t₁ hs hnone => ?_⟩
  · simp [list_of_channels, splitBy_length_one _ _ h1, hp]
  · simp [list_of_channels, hs, hp0, hp1]
  · rw [pyRange, List.length_map, List.length_range]
    omega
  · have h' : i < (b + 1 - a).toNat := by omega
    rw [pyRange, getD_map_range _ _ _ _ h']
  · have hn : b + 1 - a ≤ 0 := by omega
    rw [pyRange, Int.toNat_of_nonpos hn]
    rfl
  · have h1 : (splitBy (fun c => c = ':') s.data).length ≠ 1 := by omega
    simp [list_of_channels, h1, h]
  · simp [list_of_channels, splitBy_length_one _ _ h1, hp]
  · rcases hnone with h | h
    · cases hp1 : parseInt? (⟨t₁⟩ : String) <;> simp [list_of_channels, hs, h, hp1]
    · cases hp0 : parseInt? (⟨t₀⟩ : String) <;> simp [list_of_channels, hs, h, hp0]

theorem list_of_channels_amended_witness :
    list_of_channels "101" = .ok [101] ∧
    list_of_channels "101:105" = .ok (pyRange 101 106) ∧
    list_of_channels "101:105:110" = .error () ∧
    list_of_channels "1a5" = .error () ∧
    list_of_channels "abc:105" = .error () :=
  ⟨list_of_channels_amended.1 "101" 101 (by decide) (by decide),
   list_of_channels_amended.2.1 "101:105" "101".data "105".data 101 105 (by decide)
     (by decide) (by decide),
   list_of_channels_amended.2.2.2.2.1 "101:105:110" (by decide),
   list_of_channels_amended.2.2.2.2.2.1 "1a5" (by decide) (by decide),
   list_of_channels_amended.2.2.2.2.2.2 "abc:105" "abc".data "105".data (by decide)
     (Or.inl (by decide))⟩

/-! ## C1 -/

/-- C1: for every acquisition with `C ≥ 1` channels and `T ≥ 1` triggers, a
flat payload of exactly `C*T` values reshapes (`reshape((T, C)).T`) to a
channel-major matrix whose entry `[c][t]` is the flat value at index
`t*C + c` (trigger events fill rows, channels vary fastest); any other
element count makes the reshape fail and `measure` / `get_raw_data` return
the acquisition error. -/
theorem measure_reshape_channel_major (C T : Nat) (vec : List ℚ)
    (_hC : 1 ≤ C) (_hT : 1 ≤ T) :
    (vec.length = C * T →
      ∃ mat, Scan.reshapeCT vec C T = some mat ∧
        mat.length = C ∧
        (∀ c, c < C → (mat.getD c []).length = T) ∧
        (∀ c t, c < C → t < T → (mat.getD c []).getD t 0 = vec.getD (t * C + c) 0)) ∧
    (vec.length ≠ C * T →
      Scan.measureVec C T vec = .error () ∧
      ∀ s : String, parseFloatList s = some vec →
        Scan.measure C T s = .error () ∧ Scan.get_raw_data C T s = .error ()) := by
  constructor
  · intro hlen
    have hlen' : vec.length = T * C := by rw [hlen, Nat.mul_comm]
    rw [Scan.reshapeCT, if_pos hlen']
    refine ⟨_, rfl, by simp, fun c hc => ?_, fun c t hc ht => ?_⟩
    · rw [getD_map_range _ _ _ _ hc]
      simp
    · rw [getD_map_range _ _ _ _ hc, getD_map_range _ _ _ _ ht]
  · intro hlen
    have hlen' : vec.length ≠ T * C := by rw [Nat.mul_comm T C]; exact hlen
    refine ⟨by simp [Scan.measureVec, Scan.reshapeCT, hlen'], fun s hs => ⟨?_, ?_⟩⟩
    · simp [Scan.measure, hs, Scan.measureVec, Scan.reshapeCT, hlen']
    · simp [Scan.get_raw_data, hs, Scan.reshapeCT, hlen']

theorem measure_reshape_channel_major_witness :
    Scan.reshapeCT [10, 11, 12, 13, 14, 15] 2 3 = some [[10, 12, 14], [11, 13, 15]] ∧
    Scan.measureVec 2 3 [10, 11] = .error () :=
  ⟨by decide,
   ((measure_reshape_channel_major 2 3 [10, 11] (by decide) (by decide)).2 (by decide)).1⟩

/-! ## C5 -/

theorem chanMean_mul_length (row : List ℚ) (h : row ≠ []) :
    Scan.chanMean row * (row.length : ℚ) = row.sum := by
  by_cases h1 : row.length = 1
  · rcases row with _ | ⟨x, rest⟩
    · exact absurd rfl h
    · have : rest = [] := by simpa using h1
      subst this
      simp [Scan.chanMean]
  · rw [Scan.chanMean, if_neg h1]
    have h0 : (row.length : ℚ) ≠ 0 := by
      have : row.length ≠ 0 := by simpa using h
      exact_mod_cast this
    rw [div_mul_cancel₀ _ h0]

theorem chanVarBessel_single (row : List ℚ) (h1 : row.length = 1) :
    Scan.chanVarBessel row = 0 := by
  rw [Scan.chanVarBessel, if_pos h1]

theorem chanVarBessel_mul_pred (row : List ℚ) (h2 : 2 ≤ row.length) :
    Scan.chanVarBessel row * ((row.length : ℚ) - 1) =
      (row.map (fun x => (x - Scan.chanMean row) ^ 2)).sum := by
  have h1 : row.length ≠ 1 := by omega
  have hden : ((row.length : ℚ) - 1) ≠ 0 := by
    have : (2 : ℚ) ≤ (row.length : ℚ) := by exact_mod_cast h2
    linarith
  simp only [Scan.chanVarBessel, Scan.chanMean, if_neg h1]
  rw [div_mul_cancel₀ _ hden]

/-- C5: for every channel row of a successful `measure`, the returned mean
is the arithmetic mean of the row (stated multiplicatively:
`mean * T = row.sum`), and the reported deviation — modelled by its square
`Scan.chanVarBessel`, since `np.std(·, ddof=1)` is its nonnegative square root —
uses Bessel's correction (`var * (T - 1) = Σ (x - mean)²`) when the row has
more than one element, and is exactly `0` for a single-element row; no
division by zero ever occurs. -/
theorem measure_mean_std_bessel (C T : Nat) (vec : List ℚ) (means vars : List ℚ)
    (hT : 1 ≤ T) (h : Scan.measureVec C T vec = .ok (means, vars)) :
    means.length = C ∧ vars.length = C ∧
    ∀ c, c < C →
      (means.getD c 0) * (T : ℚ) =
        ((List.range T).map (fun t => vec.getD (t * C + c) 0)).sum ∧
      (T = 1 → vars.getD c 0 = 0) ∧
      (2 ≤ T →
        vars.getD c 0 * ((T : ℚ) - 1) =
          (((List.range T).map (fun t => vec.getD (t * C + c) 0)).map
            (fun x => (x - means.getD c 0) ^ 2)).sum) := by
  by_cases hlen : vec.length = T * C
  · simp only [Scan.measureVec, Scan.reshapeCT, hlen, if_true, eq_self_iff_true,
      Except.ok.injEq, Prod.mk.injEq] at h
    obtain ⟨hm, hv⟩ := h
    subst hm
    subst hv
    refine ⟨by simp, by simp, fun c hc => ?_⟩
    have hM : c < ((List.range C).map
        (fun c => (List.range T).map fun t => vec.getD (t * C + c) 0)).length := by
      simpa using hc
    rw [getD_map_of_lt Scan.chanMean _ c 0 [] hM, getD_map_of_lt Scan.chanVarBessel _ c 0 [] hM,
      getD_map_range _ _ _ _ hc]
    have hrl : ((List.range T).map fun t => vec.getD (t * C + c) 0).length = T := by
      simp
    refine ⟨?_, fun h1 => ?_, fun h2 => ?_⟩
    · have hne : ((List.range T).map fun t => vec.getD (t * C + c) 0) ≠ [] := by
        have : 0 < ((List.range T).map fun t => vec.getD (t * C + c) 0).length := by
          rw [hrl]; omega
        exact List.length_pos.mp this
      have := chanMean_mul_length _ hne
      rw [hrl] at this
      exact_mod_cast this
    · exact chanVarBessel_single _ (by rw [hrl, h1])
    · have := chanVarBessel_mul_pred _ (by rw [hrl]; exact h2)
      rw [hrl] at this
      exact_mod_cast this
  · simp [Scan.measureVec, Scan.reshapeCT, hlen] at h

theorem measure_mean_std_bessel_witness :
    Scan.measureVec 1 3 [1, 2, 3] = .ok ([2], [1]) ∧
    ([2] : List ℚ).length = 1 ∧ ([1] : List ℚ).length = 1 ∧
    (∀ c, c < 1 →
      (([2] : List ℚ).getD c 0) * (3 : ℚ) =
        ((List.range 3).map (fun t => ([1, 2, 3] : List ℚ).getD (t * 1 + c) 0)).sum ∧
      (3 = 1 → ([1] : List ℚ).getD c 0 = 0) ∧
      (2 ≤ 3 →
        ([1] : List ℚ).getD c 0 * ((3 : ℚ) - 1) =
          (((List.range 3).map (fun t => ([1, 2, 3] : List ℚ).getD (t * 1 + c) 0)).map
            (fun x => (x - ([2] : List ℚ).getD c 0) ^ 2)).sum)) :=
  ⟨by decide,
   (measure_mean_std_bessel 1 3 [1, 2, 3] [2] [1] (by decide) (by decide)).1,
   (measure_mean_std_bessel 1 3 [1, 2, 3] [2] [1] (by decide) (by decide)).2.1,
   (measure_mean_std_bessel 1 3 [1, 2, 3] [2] [1] (by decide) (by decide)).2.2⟩

/-! ## Shape lemmas for `configure_volt_dc` -/

/-- Full characterisation of a `KS34980A.configure_volt_dc` run on which
every reply parse succeeds and the timeout step resolves (`hm`). -/
theorem ks_configure_volt_dc_eq (vr res : String) (ch np : Option String)
    (tup : Option (ℚ × ℚ)) (mst : Option String) (t0 : ℚ) (r : Replies)
    (ln : List ℚ) (tt tc tmo : ℚ)
    (hn : parseFloatList r.nplcReply = some ln)
    (ht : parseFloat? r.trigTimReply = some tt)
    (hc : parseFloat? r.trigCounReply = some tc)
    (hm : (match mst with
           | none => some t0
           | some s => if s = "AUTO" then some (1000 * (tt + maxNplc ln / 50 + 3) * tc)
                       else parseFloat? s) = some tmo) :
    KS34980A.configure_volt_dc vr res ch np tup mst t0 r =
      ⟨[Cmd.routOpenAll] ++ (match ch with | some c => [Cmd.routScan c] | none => []) ++
        (match np with | some v => [Cmd.nplcSet v ch] | none => []) ++
        [Cmd.confVoltDC vr res ch] ++
        (match tup with
         | some tcp => [Cmd.trigSourTim, Cmd.trigTim tcp.1, Cmd.trigCoun tcp.2]
         | none => [Cmd.trigSourImm]),
       tmo,
       decide (tmo < tt * tc * 1000),
       if (check_errors r.errReplies).isEmpty then
         .ok ⟨parseConfReply r.confReply, ln, pyRstrip r.trigSourReply, tt, tc⟩
       else .error (.instrumentErrors (check_errors r.errReplies))⟩ := by
  rcases mst with _ | s
  · obtain rfl : t0 = tmo := by simpa using hm
    by_cases he : check_errors r.errReplies = [] <;>
      simp [KS34980A.configure_volt_dc, hn, ht, hc, he]
  · by_cases hs : s = "AUTO"
    · subst hs
      obtain rfl : (1000 * (tt + maxNplc ln / 50 + 3) * tc) = tmo := by simpa using hm
      by_cases he : check_errors r.errReplies = [] <;>
        simp [KS34980A.configure_volt_dc, hn, ht, hc, he]
    · rw [show (match some s with
             | none => some t0
             | some s => if s = "AUTO" then some (1000 * (tt + maxNplc ln / 50 + 3) * tc)
                         else parseFloat? s) = parseFloat? s by simp [hs]] at hm
      by_cases he : check_errors r.errReplies = [] <;>
        simp [KS34980A.configure_volt_dc, hn, ht, hc, hs, hm, he]

/-- Full characterisation of a `Daq970a.configure_volt_dc` run on which the
scan-list extraction and every reply parse succeed and the timeout step
resolves.  Note the `"IMM"` special case in the warning estimate and the
always-`ok` result (`check_errors` never raises). -/
theorem daq_configure_volt_dc_eq (vr res : String) (ch np : Option String)
    (tup : Option (ℚ × ℚ)) (mst : Option String) (t0 : ℚ) (r : Replies)
    (chl : String) (ln : List ℚ) (tt tc tmo : ℚ)
    (hx : Daq970a.extract_channel_list r.scanReply = .ok chl)
    (hn : parseFloatList r.nplcReply = some ln)
    (ht : parseFloat? r.trigTimReply = some tt)
    (hc : parseFloat? r.trigCounReply = some tc)
    (hm : (match mst with
           | none => some t0
           | some s => if s = "AUTO" then some (1000 * (tt + maxNplc ln / 50 + 3) * tc)
                       else parseFloat? s) = some tmo) :
    Daq970a.configure_volt_dc vr res ch np tup mst t0 r =
      ⟨(if chl ≠ "(@)" then [Cmd.routOpen chl] else []) ++
        (match ch with | some c => [Cmd.routScan c] | none => []) ++
        (match np with | some v => [Cmd.nplcSet v ch] | none => []) ++
        [Cmd.confVoltDC vr res ch] ++
        (match tup with
         | some tcp => [Cmd.trigSourTim, Cmd.trigTim tcp.1, Cmd.trigCoun tcp.2]
         | none => [Cmd.trigSourImm]),
       tmo,
       decide (tmo < (if pyRstrip r.trigSourReply = "IMM" then (1 : ℚ) / 5 else tt * tc)
         * 1000),
       .ok ⟨parseConfReply r.confReply, ln, pyRstrip r.trigSourReply, tt, tc⟩⟩ := by
  rcases mst with _ | s
  · obtain rfl : t0 = tmo := by simpa using hm
    simp [Daq970a.configure_volt_dc, hx, hn, ht, hc]
  · by_cases hs : s = "AUTO"
    · subst hs
      obtain rfl : (1000 * (tt + maxNplc ln / 50 + 3) * tc) = tmo := by simpa using hm
      simp [Daq970a.configure_volt_dc, hx, hn, ht, hc]
    · rw [show (match some s with
             | none => some t0
             | some s => if s = "AUTO" then some (1000 * (tt + maxNplc ln / 50 + 3) * tc)
                         else parseFloat? s) = parseFloat? s by simp [hs]] at hm
      simp [Daq970a.configure_volt_dc, hx, hn, ht, hc, hs, hm]

/-- The writes of a `KS34980A.configure_volt_dc` run depend only on the
arguments and the NPLC-reply parse: once the NPLC reply parses, the full
command sequence has been written whatever happens to the later queries or
the timeout resolution. -/
theorem ks_configure_writes_eq (vr res : String) (ch np : Option String)
    (tup : Option (ℚ × ℚ)) (mst : Option String) (t0 : ℚ) (r : Replies) (ln : List ℚ)
    (hn : parseFloatList r.nplcReply = some ln) :
    (KS34980A.configure_volt_dc vr res ch np tup mst t0 r).writes =
      [Cmd.routOpenAll] ++ (match ch with | some c => [Cmd.routScan c] | none => []) ++
      (match np with | some v => [Cmd.nplcSet v ch] | none => []) ++
      [Cmd.confVoltDC vr res ch] ++
      (match tup with
       | some tcp => [Cmd.trigSourTim, Cmd.trigTim tcp.1, Cmd.trigCoun tcp.2]
       | none => [Cmd.trigSourImm]) := by
  cases ht : parseFloat? r.trigTimReply with
  | none => simp [KS34980A.configure_volt_dc, hn, ht]
  | some tt =>
    cases hc : parseFloat? r.trigCounReply with
    | none => simp [KS34980A.configure_volt_dc, hn, ht, hc]
    | some tc =>
      rcases mst with _ | s
      · by_cases he : check_errors r.errReplies = [] <;>
          simp [KS34980A.configure_volt_dc, hn, ht, hc, he]
      · by_cases hs : s = "AUTO"
        · subst hs
          by_cases he : check_errors r.errReplies = [] <;>
            simp [KS34980A.configure_volt_dc, hn, ht, hc, he]
        · cases hv : parseFloat? s with
          | none => simp [KS34980A.configure_volt_dc, hn, ht, hc, hs, hv]
          | some v =>
            by_cases he : check_errors r.errReplies = [] <;>
              simp [KS34980A.configure_volt_dc, hn, ht, hc, hs, hv, he]

/-- `Daq970a` version of `ks_configure_writes_eq`: the scan-list
extraction must also succeed (it precedes the first write). -/
theorem daq_configure_writes_eq (vr res : String) (ch np : Option String)
    (tup : Option (ℚ × ℚ)) (mst : Option String) (t0 : ℚ) (r : Replies)
    (chl : String) (ln : List ℚ)
    (hx : Daq970a.extract_channel_list r.scanReply = .ok chl)
    (hn : parseFloatList r.nplcReply = some ln) :
    (Daq970a.configure_volt_dc vr res ch np tup mst t0 r).writes =
      (if chl ≠ "(@)" then [Cmd.routOpen chl] else []) ++
      (match ch with | some c => [Cmd.routScan c] | none => []) ++
      (match np with | some v => [Cmd.nplcSet v ch] | none => []) ++
      [Cmd.confVoltDC vr res ch] ++
      (match tup with
       | some tcp => [Cmd.trigSourTim, Cmd.trigTim tcp.1, Cmd.trigCoun tcp.2]
       | none => [Cmd.trigSourImm]) := by
  cases ht : parseFloat? r.trigTimReply with
  | none => simp [Daq970a.configure_volt_dc, hx, hn, ht]
  | some tt =>
    cases hc : parseFloat? r.trigCounReply with
    | none => simp [Daq970a.configure_volt_dc, hx, hn, ht, hc]
    | some tc =>
      rcases mst with _ | s
      · simp [Daq970a.configure_volt_dc, hx, hn, ht, hc]
      · by_cases hs : s = "AUTO"
        · subst hs
          simp [Daq970a.configure_volt_dc, hx, hn, ht, hc]
        · cases hv : parseFloat? s with
          | none => simp [Daq970a.configure_volt_dc, hx, hn, ht, hc, hs, hv]
          | some v => simp [Daq970a.configure_volt_dc, hx, hn, ht, hc, hs, hv]

/-! ## C2 -/

/-- C2: timeout policy of `configure_volt_dc` in both wrappers.  With
`ms_timeout = "AUTO"` the transport timeout is set to
`1000 * (trig_time + max(applied NPLC)/50 + 3) * trig_count` milliseconds
(`trig_time` / `trig_count` are the queried `TRIG:TIM?` / `TRIG:COUN?`
values, the NPLC list the parsed `VOLT:DC:NPLC?` reply); with an explicit
numeric value that value is set directly; with no `ms_timeout` the
transport timeout is left unchanged. -/
theorem configure_timeout_policy (vr res : String) (ch np : Option String)
    (tup : Option (ℚ × ℚ)) (mst : Option String) (t0 : ℚ) (r : Replies)
    (chl : String) (ln : List ℚ) (tt tc : ℚ)
    (hx : Daq970a.extract_channel_list r.scanReply = .ok chl)
    (hn : parseFloatList r.nplcReply = some ln)
    (ht : parseFloat? r.trigTimReply = some tt)
    (hc : parseFloat? r.trigCounReply = some tc) :
    (mst = some "AUTO" →
      (KS34980A.configure_volt_dc vr res ch np tup mst t0 r).timeout =
        1000 * (tt + maxNplc ln / 50 + 3) * tc ∧
      (Daq970a.configure_volt_dc vr res ch np tup mst t0 r).timeout =
        1000 * (tt + maxNplc ln / 50 + 3) * tc) ∧
    (∀ s v, mst = some s → s ≠ "AUTO" → parseFloat? s = some v →
      (KS34980A.configure_volt_dc vr res ch np tup mst t0 r).timeout = v ∧
      (Daq970a.configure_volt_dc vr res ch np tup mst t0 r).timeout = v) ∧
    (mst = none →
      (KS34980A.configure_volt_dc vr res ch np tup mst t0 r).timeout = t0 ∧
      (Daq970a.configure_volt_dc vr res ch np tup mst t0 r).timeout = t0) := by
  refine ⟨fun hA => ?_, fun s v hs hsne hv => ?_, fun hnone => ?_⟩
  · subst hA
    rw [ks_configure_volt_dc_eq vr res ch np tup _ t0 r ln tt tc
        (1000 * (tt + maxNplc ln / 50 + 3) * tc) hn ht hc (by simp),
      daq_configure_volt_dc_eq vr res ch np tup _ t0 r chl ln tt tc
        (1000 * (tt + maxNplc ln / 50 + 3) * tc) hx hn ht hc (by simp)]
    exact ⟨rfl, rfl⟩
  · subst hs
    rw [ks_configure_volt_dc_eq vr res ch np tup _ t0 r ln tt tc v hn ht hc
        (by simp [hsne, hv]),
      daq_configure_volt_dc_eq vr res ch np tup _ t0 r chl ln tt tc v hx hn ht hc
        (by simp [hsne, hv])]
    exact ⟨rfl, rfl⟩
  · subst hnone
    rw [ks_configure_volt_dc_eq vr res ch np tup _ t0 r ln tt tc t0 hn ht hc rfl,
      daq_configure_volt_dc_eq vr res ch np tup _ t0 r chl ln tt tc t0 hx hn ht hc rfl]
    exact ⟨rfl, rfl⟩

theorem configure_timeout_policy_witness :
    (KS34980A.configure_volt_dc "AUTO" "DEF" (some "1001:1010") (some "1")
        (some (1 / 10, 10)) (some "AUTO") 5000
        ⟨"", "+1.00000000E+00", "\"VOLT +1.000000E+01,+3.000000E-06\"", "TIM",
         "+1.000000E-01", "+10", [some "+0,\"No error\""]⟩).timeout =
      1000 * ((1 / 10 : ℚ) + maxNplc [1] / 50 + 3) * 10 ∧
    1000 * ((1 / 10 : ℚ) + maxNplc [1] / 50 + 3) * 10 = 31200 :=
  ⟨((configure_timeout_policy "AUTO" "DEF" (some "1001:1010") (some "1")
      (some (1 / 10, 10)) (some "AUTO") 5000
      ⟨"", "+1.00000000E+00", "\"VOLT +1.000000E+01,+3.000000E-06\"", "TIM",
       "+1.000000E-01", "+10", [some "+0,\"No error\""]⟩
      "" [1] (1 / 10) 10 (by decide) (by decide) (by decide) (by decide)).1 rfl).1,
   by decide⟩

/-! ## C6 -/

/-- C6: once a `configure_volt_dc` run reaches the trigger step (the NPLC
reply parsed; for the DAQ970A also the scan-list extraction succeeded), a
timed trigger `(interval, count)` emits exactly the three trigger commands
`TRIG:SOUR TIM`, `TRIG:TIM interval`, `TRIG:COUN count`, consecutively and
in that order, at the end of the write sequence; with no timed trigger the
only trigger command emitted is `TRIG:SOUR IMM`. -/
theorem configure_trigger_write_order (vr res : String) (ch np : Option String)
    (tup : Option (ℚ × ℚ)) (mst : Option String) (t0 : ℚ) (r : Replies)
    (chl : String) (ln : List ℚ)
    (hx : Daq970a.extract_channel_list r.scanReply = .ok chl)
    (hn : parseFloatList r.nplcReply = some ln) :
    (∀ i n, tup = some (i, n) →
      (∃ pre, (KS34980A.configure_volt_dc vr res ch np tup mst t0 r).writes =
          pre ++ [Cmd.trigSourTim, Cmd.trigTim i, Cmd.trigCoun n] ∧
        pre.filter isTrigCmd = []) ∧
      (∃ pre, (Daq970a.configure_volt_dc vr res ch np tup mst t0 r).writes =
          pre ++ [Cmd.trigSourTim, Cmd.trigTim i, Cmd.trigCoun n] ∧
        pre.filter isTrigCmd = [])) ∧
    (tup = none →
      (KS34980A.configure_volt_dc vr res ch np tup mst t0 r).writes.filter isTrigCmd =
        [Cmd.trigSourImm] ∧
      (Daq970a.configure_volt_dc vr res ch np tup mst t0 r).writes.filter isTrigCmd =
        [Cmd.trigSourImm]) := by
  rw [ks_configure_writes_eq vr res ch np tup mst t0 r ln hn,
    daq_configure_writes_eq vr res ch np tup mst t0 r chl ln hx hn]
  constructor
  · rintro i n rfl
    constructor
    · refine ⟨[Cmd.routOpenAll] ++
        (match ch with | some c => [Cmd.routScan c] | none => []) ++
        (match np with | some v => [Cmd.nplcSet v ch] | none => []) ++
        [Cmd.confVoltDC vr res ch], by simp, ?_⟩
      rcases ch with _ | c <;> rcases np with _ | v <;> simp [isTrigCmd]
    · refine ⟨(if chl ≠ "(@)" then [Cmd.routOpen chl] else []) ++
        (match ch with | some c => [Cmd.routScan c] | none => []) ++
        (match np with | some v => [Cmd.nplcSet v ch] | none => []) ++
        [Cmd.confVoltDC vr res ch], by simp, ?_⟩
      rcases ch with _ | c <;> rcases np with _ | v <;>
        by_cases hch : chl = "(@)" <;> simp [isTrigCmd, hch]
  · rintro rfl
    constructor
    · rcases ch with _ | c <;> rcases np with _ | v <;> simp [isTrigCmd]
    · rcases ch with _ | c <;> rcases np with _ | v <;>
        by_cases hch : chl = "(@)" <;> simp [isTrigCmd, hch]

theorem configure_trigger_write_order_witness :
    (KS34980A.configure_volt_dc "AUTO" "DEF" (some "1001") (some "1") (some (1 / 10, 10))
        none 5000 ⟨"", "1.0", "\"VOLT\"", "TIM", "0.1", "10", [some "+0"]⟩).writes.filter
      isTrigCmd = [Cmd.trigSourTim, Cmd.trigTim (1 / 10), Cmd.trigCoun 10] ∧
    (Daq970a.configure_volt_dc "AUTO" "DEF" (some "101") (some "1") none
        none 5000 ⟨"#13(@)", "1.0", "\"VOLT\"", "IMM", "0.1", "10",
          [some "+0"]⟩).writes.filter isTrigCmd = [Cmd.trigSourImm] := by
  have h1 := (configure_trigger_write_order "AUTO" "DEF" (some "1001") (some "1")
    (some (1 / 10, 10)) none 5000 ⟨"", "1.0", "\"VOLT\"", "TIM", "0.1", "10", [some "+0"]⟩
    "" [1] (by decide) (by decide)).1 (1 / 10) 10 rfl
  have h2 := (configure_trigger_write_order "AUTO" "DEF" (some "101") (some "1") none
    none 5000 ⟨"#13(@)", "1.0", "\"VOLT\"", "IMM", "0.1", "10", [some "+0"]⟩
    "(@)" [1] (by decide) (by decide)).2 rfl
  refine ⟨?_, h2.2⟩
  obtain ⟨⟨pre, hw, hf⟩, -⟩ := h1
  rw [hw, List.filter_append, hf]
  rfl

/-! ## C7 -/

/-- C7 counterexample: the claim defines the estimated scan duration as
`trigger_interval * trigger_count` unconditionally.  In the DAQ970A
wrapper, when the queried trigger source is `"IMM"` the estimate is a fixed
`0.2` seconds instead: with `TRIG:TIM? = 1.0`, `TRIG:COUN? = 10` and an
applied timeout of 500 ms (500 < 1.0 * 10 * 1000), no warning is emitted
and the call completes. -/
theorem daq_imm_insufficient_timeout_no_warning :
    (Daq970a.configure_volt_dc "AUTO" "DEF" (some "101") (some "1") none (some "500") 5000
      ⟨"#13(@)", "1.0", "\"VOLT\"", "IMM", "1.0", "10", [some "+0"]⟩).warned = false ∧
    (Daq970a.configure_volt_dc "AUTO" "DEF" (some "101") (some "1") none (some "500") 5000
      ⟨"#13(@)", "1.0", "\"VOLT\"", "IMM", "1.0", "10", [some "+0"]⟩).timeout = 500 ∧
    (Daq970a.configure_volt_dc "AUTO" "DEF" (some "101") (some "1") none (some "500") 5000
      ⟨"#13(@)", "1.0", "\"VOLT\"", "IMM", "1.0", "10", [some "+0"]⟩).result =
      .ok ⟨["VOLT"], [1], "IMM", 1, 10⟩ ∧
    ((500 : ℚ) < 1 * 10 * 1000) :=
  ⟨by decide, by decide, by decide, by decide⟩

/-- C7 amended: whenever the timeout step of `configure_volt_dc` resolves
to `tmo`, the non-fatal insufficient-timeout warning is emitted exactly
when `tmo` is below the estimated scan duration in milliseconds — the
estimate being `trig_time * trig_count` seconds for the 34980A wrapper in
all cases, and for the DAQ970A wrapper only when the queried trigger source
is not `"IMM"`, where a fixed `0.2` s estimate is used instead.  The
warning never makes the call fail: the DAQ970A call still returns, and the
34980A call fails afterwards only if the error-queue drain is non-empty. -/
theorem configure_timeout_warning_amended (vr res : String) (ch np : Option String)
    (tup : Option (ℚ × ℚ)) (mst : Option String) (t0 : ℚ) (r : Replies)
    (chl : String) (ln : List ℚ) (tt tc tmo : ℚ)
    (hx : Daq970a.extract_channel_list r.scanReply = .ok chl)
    (hn : parseFloatList r.nplcReply = some ln)
    (ht : parseFloat? r.trigTimReply = some tt)
    (hc : parseFloat? r.trigCounReply = some tc)
    (hm : (match mst with
           | none => some t0
           | some s => if s = "AUTO" then some (1000 * (tt + maxNplc ln / 50 + 3) * tc)
                       else parseFloat? s) = some tmo) :
    ((KS34980A.configure_volt_dc vr res ch np tup mst t0 r).warned =
      decide (tmo < tt * tc * 1000)) ∧
    ((Daq970a.configure_volt_dc vr res ch np tup mst t0 r).warned =
      decide (tmo < (if pyRstrip r.trigSourReply = "IMM" then (1 : ℚ) / 5 else tt * tc)
        * 1000)) ∧
    ((Daq970a.configure_volt_dc vr res ch np tup mst t0 r).result.isOk = true) ∧
    ((check_errors r.errReplies).isEmpty = true →
      (KS34980A.configure_volt_dc vr res ch np tup mst t0 r).result.isOk = true) := by
  rw [ks_configure_volt_dc_eq vr res ch np tup mst t0 r ln tt tc tmo hn ht hc hm,
    daq_configure_volt_dc_eq vr res ch np tup mst t0 r chl ln tt tc tmo hx hn ht hc hm]
  refine ⟨rfl, rfl, rfl, fun he => ?_⟩
  simp only [he, List.isEmpty_iff] at *
  simp [he]
  rfl

theorem configure_timeout_warning_amended_witness :
    (KS34980A.configure_volt_dc "AUTO" "DEF" (some "1001") (some "1") (some (1, 10))
      (some "500") 5000
      ⟨"", "1.0", "\"VOLT\"", "TIM", "1.0", "10", [some "+0"]⟩).warned =
      decide ((500 : ℚ) < 1 * 10 * 1000) ∧
    decide ((500 : ℚ) < 1 * 10 * 1000) = true ∧
    (KS34980A.configure_volt_dc "AUTO" "DEF" (some "1001") (some "1") (some (1, 10))
      (some "500") 5000
      ⟨"", "1.0", "\"VOLT\"", "TIM", "1.0", "10", [some "+0"]⟩).result.isOk = true :=
  ⟨(configure_timeout_warning_amended "AUTO" "DEF" (some "1001") (some "1") (some (1, 10))
      (some "500") 5000 ⟨"", "1.0", "\"VOLT\"", "TIM", "1.0", "10", [some "+0"]⟩
      "" [1] 1 10 500 (by decide) (by decide) (by decide) (by decide) (by decide)).1,
   by decide,
   (configure_timeout_warning_amended "AUTO" "DEF" (some "1001") (some "1") (some (1, 10))
      (some "500") 5000 ⟨"", "1.0", "\"VOLT\"", "TIM", "1.0", "10", [some "+0"]⟩
      "" [1] 1 10 500 (by decide) (by decide) (by decide) (by decide) (by decide)).2.2.2
     (by decide)⟩

/-! ## C4 -/

/-- C4 (code bug in `module_daq970a_visa.py`): after configuration both
wrappers drain the error queue, but `Daq970a.check_errors` only
*constructs* `DAQ970AError(f"Instrument errors during configuration:
{errors}")` — the `raise` is missing (line 242) — so a DAQ970A
configuration with a queued instrument error returns normally.  The 34980A
wrapper raises as the claim states.  Shown on the same error stream: the
drain yields a non-empty list, the DAQ970A call still returns `ok`, the
34980A call fails with the error list. -/
theorem daq_configure_ignores_instrument_errors :
    check_errors [some "-113,\"Undefined header\"", some "+0,\"No error\""] =
      ["-113,\"Undefined header\""] ∧
    (Daq970a.configure_volt_dc "AUTO" "DEF" (some "101") (some "1") none none 5000
      ⟨"#13(@)", "1.0", "\"VOLT\"", "IMM", "1.0", "10",
       [some "-113,\"Undefined header\"", some "+0,\"No error\""]⟩).result =
      .ok ⟨["VOLT"], [1], "IMM", 1, 10⟩ ∧
    (KS34980A.configure_volt_dc "AUTO" "DEF" (some "1001") (some "1") none none 5000
      ⟨"", "1.0", "\"VOLT\"", "IMM", "1.0", "10",
       [some "-113,\"Undefined header\"", some "+0,\"No error\""]⟩).result =
      .error (.instrumentErrors ["-113,\"Undefined header\""]) :=
  ⟨by decide, by decide, by decide⟩

/-! ## C8 -/

/-- C8 counterexample: the claim says a malformed per-channel `CONF?` entry
is logged and skipped from the returned mode/range/resolution lists.  For
the entry `"FREQ,x,y"` (three fields, non-numeric range) the loop appends
`"FREQ"` to the mode list *before* `float("x")` raises, so the malformed
channel is not skipped from the mode list; and the entry `"JUNK"` (fewer
than three fields) is skipped without the handler running, so nothing is
logged for it. -/
theorem conf_parse_malformed_entry_behavior :
    parseConfLoop ["VOLT 1 2", "FREQ,x,y"] =
      ⟨["VOLT", "FREQ"], [1], [2], ["FREQ,x,y"]⟩ ∧
    parseConfLoop ["JUNK"] = ⟨[], [], [], []⟩ :=
  ⟨by decide, by decide⟩

/-- C8 amended: the reconciliation parse loop is total and per-entry
defensive.  An entry with at least three fields always contributes its
first field to the mode list; it contributes to the range list iff its
second field parses as a float, and to the resolution list iff its second
and third fields both parse; a diagnostic is logged exactly for the entries
with at least three fields whose numeric parse failed, while an entry with
fewer than three fields is skipped silently.  Well-formed entries are
retained in order regardless of malformed neighbours.  Moreover the
configuration call never aborts because of the `CONF?` reply: replacing it
by anything else leaves the success/failure status of `configure_volt_dc`
unchanged in both wrappers. -/
theorem conf_parse_defensive_amended :
    (∀ l : List String,
      parseConfLoop l =
        ⟨l.filterMap (fun c => if 3 ≤ (confParts c).length
            then some ((confParts c).getD 0 "") else none),
         l.filterMap (fun c => if 3 ≤ (confParts c).length
            then parseFloat? ((confParts c).getD 1 "") else none),
         l.filterMap (fun c => if 3 ≤ (confParts c).length then
            match parseFloat? ((confParts c).getD 1 ""),
                parseFloat? ((confParts c).getD 2 "") with
            | some _, some sv => some sv
            | _, _ => none
          else none),
         l.filter (fun c => 3 ≤ (confParts c).length &&
            !((parseFloat? ((confParts c).getD 1 "")).isSome &&
              (parseFloat? ((confParts c).getD 2 "")).isSome))⟩) ∧
    (∀ (vr res : String) (ch np : Option String) (tup : Option (ℚ × ℚ))
        (mst : Option String) (t0 : ℚ) (r : Replies) (s : String),
      ((KS34980A.configure_volt_dc vr res ch np tup mst t0
          { r with confReply := s }).result.isOk =
        (KS34980A.configure_volt_dc vr res ch np tup mst t0 r).result.isOk) ∧
      ((Daq970a.configure_volt_dc vr res ch np tup mst t0
          { r with confReply := s }).result.isOk =
        (Daq970a.configure_volt_dc vr res ch np tup mst t0 r).result.isOk)) := by
  constructor
  · intro l
    induction l with
    | nil => rfl
    | cons conf rest ih =>
      by_cases hp : 3 ≤ (confParts conf).length
      · cases hv1 : parseFloat? ((confParts conf)[1]?.getD "") with
        | none => simp [parseConfLoop, hp, hv1, ih]
        | some rv =>
          cases hv2 : parseFloat? ((confParts conf)[2]?.getD "") with
          | none => simp [parseConfLoop, hp, hv1, hv2, ih]
          | some sv => simp [parseConfLoop, hp, hv1, hv2, ih]
      · simp [parseConfLoop, hp, ih]
  · intro vr res ch np tup mst t0 r s
    constructor
    · cases hn : parseFloatList r.nplcReply with
      | none => simp [KS34980A.configure_volt_dc, hn]
      | some ln =>
        cases ht : parseFloat? r.trigTimReply with
        | none => simp [KS34980A.configure_volt_dc, hn, ht]
        | some tt =>
          cases hc : parseFloat? r.trigCounReply with
          | none => simp [KS34980A.configure_volt_dc, hn, ht, hc]
          | some tc =>
            by_cases he : check_errors r.errReplies = []
            all_goals rcases mst with _ | s'
            all_goals try (by_cases hs' : s' = "AUTO")
            all_goals try (cases hv : parseFloat? s')
            all_goals simp [KS34980A.configure_volt_dc, Except.isOk, Except.toBool, hn, ht, hc, he, *]
    · cases hxx : Daq970a.extract_channel_list r.scanReply with
      | error e => simp [Daq970a.configure_volt_dc, hxx]
      | ok chl =>
        cases hn : parseFloatList r.nplcReply with
        | none => simp [Daq970a.configure_volt_dc, hxx, hn]
        | some ln =>
          cases ht : parseFloat? r.trigTimReply with
          | none => simp [Daq970a.configure_volt_dc, hxx, hn, ht]
          | some tt =>
            cases hc : parseFloat? r.trigCounReply with
            | none => simp [Daq970a.configure_volt_dc, hxx, hn, ht, hc]
            | some tc =>
              rcases mst with _ | s'
              all_goals try (by_cases hs' : s' = "AUTO")
              all_goals try (cases hv : parseFloat? s')
              all_goals simp [Daq970a.configure_volt_dc, Except.isOk, Except.toBool, hxx, hn, ht, hc, *]
